import Mathlib

/-!
Shallow embedding of the quant_strategy subsystem of the repository
(signal evaluation, multi-timeframe fusion, order planning, position state
machine, and the two orchestration cycles), together with theorems settling
the spec claims.  Python floats are modelled as rationals, datetimes as
rational seconds since the epoch, Python dicts as association lists, and
raised exceptions as values of an error type.
-/

namespace QuantStrategy

/-- Python exception kinds that the embedded code can raise. -/
inductive PyErr where
  | attributeError (msg : String)
  | typeError (msg : String)
  | valueError (msg : String)
  | keyError (msg : String)
deriving DecidableEq, Repr

/-- TradeDirection enum from core/models.py. -/
inductive TradeDirection where
  | long
  | short
  | flat
deriving DecidableEq, Repr

/-- The str value of each TradeDirection member. -/
def TradeDirection.value : TradeDirection → String
  | .long => "long"
  | .short => "short"
  | .flat => "flat"

/-- Lookup in a Python dict modelled as an association list (first match). -/
def dget {κ α : Type} [DecidableEq κ] (d : List (κ × α)) (k : κ) : Option α :=
  (d.find? (fun e => decide (e.1 = k))).map (fun e => e.2)

/-- Python dict.get with a default value. -/
def dgetD {κ α : Type} [DecidableEq κ] (d : List (κ × α)) (k : κ) (dflt : α) : α :=
  match dget d k with
  | some v => v
  | none => dflt

/-- Python dict item assignment: overwrite an existing key or append. -/
def dset {κ α : Type} [DecidableEq κ] (d : List (κ × α)) (k : κ) (v : α) : List (κ × α) :=
  if (dget d k).isSome then
    d.map (fun e => if e.1 = k then (k, v) else e)
  else
    d ++ [(k, v)]

/-- Python truthiness fallback x or d for an optional float: None and 0.0
are falsy and give the default. -/
def orD (x : Option ℚ) (d : ℚ) : ℚ :=
  match x with
  | none => d
  | some v => if v = 0 then d else v

/-- DataConfig from core/config.py. -/
structure DataConfig where
  symbols : List String
  intervals : List String
  refresh_seconds : ℤ
  cache_ttl_seconds : ℤ
  history_limit : ℤ
deriving DecidableEq, Repr

/-- Default DataConfig values from core/config.py. -/
def defaultDataConfig : DataConfig :=
  { symbols := ["BTCUSDT", "ETHUSDT"]
    intervals := ["15m", "4h", "1d"]
    refresh_seconds := 900
    cache_ttl_seconds := 600
    history_limit := 500 }

/-- IndicatorConfig from core/config.py.  Note: the model declares no
atr_window field, although indicators/calculator.py reads one. -/
structure IndicatorConfig where
  macd_fast : ℕ
  macd_slow : ℕ
  macd_signal : ℕ
  ma_windows : List ℕ
  ema_windows : List ℕ
  rsi_windows : List ℕ
deriving DecidableEq, Repr

/-- The field names declared by the pydantic IndicatorConfig model in
core/config.py lines 30-36. -/
def indicatorConfigFields : List String :=
  ["macd_fast", "macd_slow", "macd_signal", "ma_windows", "ema_windows", "rsi_windows"]

/-- Default IndicatorConfig values from core/config.py. -/
def defaultIndicatorConfig : IndicatorConfig :=
  { macd_fast := 12
    macd_slow := 26
    macd_signal := 9
    ma_windows := [5, 20, 60]
    ema_windows := [12, 26]
    rsi_windows := [6, 14] }

/-- RiskConfig from core/config.py.  Note: the model declares none of
use_atr_targets, risk_per_trade_pct, atr_take_profit_multiplier,
atr_stop_loss_multiplier, although execution/orders.py reads all four. -/
structure RiskConfig where
  leverage : ℚ
  take_profit_pct : ℚ
  stop_loss_pct : ℚ
  confidence_buckets : List ℚ
  max_position_minutes : ℤ
  forced_close_minutes_before_eod : ℤ
deriving DecidableEq, Repr

/-- The field names declared by the pydantic RiskConfig model in
core/config.py lines 48-54. -/
def riskConfigFields : List String :=
  ["leverage", "take_profit_pct", "stop_loss_pct", "confidence_buckets",
   "max_position_minutes", "forced_close_minutes_before_eod"]

/-- Default RiskConfig values from core/config.py. -/
def defaultRiskConfig : RiskConfig :=
  { leverage := 5
    take_profit_pct := 0.06
    stop_loss_pct := 0.03
    confidence_buckets := [0.05, 0.08, 0.10, 0.12, 0.15]
    max_position_minutes := 120
    forced_close_minutes_before_eod := 15 }

/-- The sections of Config (core/config.py) consumed by the verified
components; the exchange, ai and scheduler sections carry only collaborator
settings and are omitted. -/
structure Config where
  data : DataConfig
  indicators : IndicatorConfig
  risk : RiskConfig
deriving DecidableEq, Repr

/-- Default Config. -/
def defaultConfig : Config :=
  { data := defaultDataConfig
    indicators := defaultIndicatorConfig
    risk := defaultRiskConfig }

/-- OHLCV candle dataclass from core/models.py; open_time is rational
seconds since the epoch. -/
structure OHLCV where
  symbol : String
  interval : String
  open_time : ℚ
  open_ : ℚ
  high : ℚ
  low : ℚ
  close : ℚ
  volume : ℚ
deriving DecidableEq, Repr

/-- Values stored in the free-form metadata dict of a Signal: the code puts
numbers, strings, a per-interval direction map and a string list there. -/
inductive MetaValue where
  | num (q : ℚ)
  | str (s : String)
  | dirs (m : List (String × String))
  | strList (l : List String)
deriving DecidableEq, Repr

/-- The indicator record as constructed by IndicatorCalculator.calculate
(calculator.py lines 66-82) and consumed by SignalEvaluator and the context
builder: it carries close, volume and atr in addition to the series maps.
The dataclass declared in core/models.py omits close, volume and atr; that
declared field list is recorded separately in indicatorSetModelFields. -/
structure IndicatorSet where
  symbol : String
  interval : String
  timestamp : ℚ
  close : ℚ
  volume : ℚ
  atr : Option ℚ
  ma : List (ℕ × ℚ)
  ema : List (ℕ × ℚ)
  macd : List (String × ℚ)
  rsi : List (ℕ × ℚ)
  volume_ratio : Option ℚ
deriving DecidableEq, Repr

/-- The field names declared by the slots dataclass IndicatorSet in
core/models.py lines 29-38. -/
def indicatorSetModelFields : List String :=
  ["symbol", "interval", "timestamp", "ma", "ema", "macd", "rsi", "volume_ratio"]

/-- The keyword arguments IndicatorCalculator.calculate passes to the
IndicatorSet constructor (calculator.py lines 66-82). -/
def calculateCtorKwargs : List String :=
  ["symbol", "interval", "timestamp", "close", "volume", "atr",
   "ma", "ema", "macd", "rsi", "volume_ratio"]

/-- Signal dataclass from core/models.py. -/
structure Signal where
  symbol : String
  direction : TradeDirection
  confidence : ℚ
  reason : String
  timestamp : ℚ
  metadata : List (String × MetaValue)
deriving DecidableEq, Repr

/-- Position dataclass from core/models.py. -/
structure Position where
  symbol : String
  direction : TradeDirection
  size : ℚ
  entry_price : ℚ
  leverage : ℚ
  open_time : ℚ
  stop_loss : ℚ
  take_profit : ℚ
  support : Option ℚ := none
  resistance : Option ℚ := none
deriving DecidableEq, Repr

/-- AiEvaluation dataclass from core/models.py (raw_response omitted). -/
structure AiEvaluation where
  action : String
  reason : String
  risk_level : String
  confidence : ℚ
deriving DecidableEq, Repr

/-- StrategyState dataclass from core/models.py. -/
structure StrategyState where
  current_position : Option Position := none
  signal_history : List Signal := []
  ai_history : List AiEvaluation := []
  last_data_pull : Option ℚ := none
  last_minute_review : Option ℚ := none
deriving DecidableEq, Repr

/-! State machine, execution/state_machine.py. -/

/-- StrategyStateMachine.enter_position: set the current position. -/
def enterPosition (st : StrategyState) (p : Position) : StrategyState :=
  { st with current_position := some p }

/-- StrategyStateMachine.exit_position: clear the current position. -/
def exitPosition (st : StrategyState) : StrategyState :=
  { st with current_position := none }

/-- StrategyStateMachine.should_force_close (state_machine.py lines 29-35):
false when no position is open; true when minutes_to_close is at most the
forced-close buffer; otherwise true exactly when the elapsed holding time in
minutes reaches the configured maximum. -/
def shouldForceClose (risk : RiskConfig) (st : StrategyState) (now : ℚ)
    (minutesToClose : ℤ) : Bool :=
  match st.current_position with
  | none => false
  | some pos =>
    if minutesToClose ≤ risk.forced_close_minutes_before_eod then true
    else decide ((now - pos.open_time) / 60 ≥ (risk.max_position_minutes : ℚ))

/-- StrategyStateMachine.needs_minute_review: true when no prior review or
at least 60 seconds elapsed. -/
def needsMinuteReview (st : StrategyState) (now : ℚ) : Bool :=
  match st.last_minute_review with
  | none => true
  | some last => decide (now - last ≥ 60)

/-- StrategyStateMachine.mark_minute_review: record the review timestamp. -/
def markMinuteReview (st : StrategyState) (now : ℚ) : StrategyState :=
  { st with last_minute_review := some now }

/-! Order planner, execution/orders.py. -/

/-- OrderPlanner.create_position (orders.py lines 17-60).  A non-positive
price raises ValueError at line 20.  For a positive price, line 24 evaluates
the condition self dot risk dot use_atr_targets; RiskConfig declares no such
field, so pydantic attribute lookup raises AttributeError there, before any
Position is constructed (lines 28, 31 and 40 would likewise read the
undeclared risk_per_trade_pct and atr multipliers).  The remainder of the
body (targets, sizing, clamping, construction) is therefore unreachable. -/
def createPosition (risk : RiskConfig) (signal : Signal) (accountEquity : ℚ)
    (price : ℚ) (volatility : Option ℚ) : Except PyErr Position :=
  if price ≤ 0 then
    .error (.valueError "Price must be positive to create a position.")
  else
    .error (.attributeError "RiskConfig.use_atr_targets")

/-! Indicator engine, indicators/calculator.py. -/

/-- IndicatorCalculator.calculate (calculator.py lines 17-84).  Empty input
returns an empty list at line 19.  For non-empty input, lines 21-58 build
pandas series without touching strategy state, and line 59 then reads
self dot cfg dot atr_window; IndicatorConfig declares no such field, so
pydantic attribute lookup raises AttributeError there and no IndicatorSet is
ever produced.  (Had execution continued, the constructor call at lines
66-82 would also pass the close, volume and atr keywords, which the slots
dataclass IndicatorSet in core/models.py rejects.) -/
def calculate (cfg : IndicatorConfig) (candles : List OHLCV) :
    Except PyErr (List IndicatorSet) :=
  if candles.isEmpty then .ok []
  else .error (.attributeError "IndicatorConfig.atr_window")

/-! Signal evaluator, signals/evaluator.py. -/

/-- MACD block of SignalEvaluator dot score_indicator (evaluator.py lines
60-65): returns the score increment and appended reasons. -/
def macdStep (macdHist macdSig : ℚ) : ℚ × List String :=
  if macdHist > 0 ∧ macdHist > macdSig then (0.3, ["MACD 多头动能增强"])
  else if macdHist < 0 ∧ macdHist < macdSig then (-0.3, ["MACD 空头动能增强"])
  else (0, [])

/-- Moving-average cross block (evaluator.py lines 67-72). -/
def maStep (maFast maSlow : ℚ) : ℚ × List String :=
  if maFast > maSlow then (0.2, ["均线金叉"])
  else if maFast < maSlow then (-0.2, ["均线死叉"])
  else (0, [])

/-- EMA trend block (evaluator.py lines 74-79). -/
def emaStep (emaFast emaSlow : ℚ) : ℚ × List String :=
  if emaFast > emaSlow then (0.1, ["EMA 多头趋势"])
  else if emaFast < emaSlow then (-0.1, ["EMA 空头趋势"])
  else (0, [])

/-- Price versus long-window MA block (evaluator.py lines 81-87); both
quantities must be truthy (nonzero) for the comparison to run. -/
def priceStep (price maLong : ℚ) : ℚ × List String :=
  if price ≠ 0 ∧ maLong ≠ 0 then
    if price > maLong then (0.05, ["价格站上长周期均线"])
    else if price < maLong then (-0.05, ["价格跌破长周期均线"])
    else (0, [])
  else (0, [])

/-- Short RSI block (evaluator.py lines 89-94). -/
def rsiStep (rsiShort : ℚ) : ℚ × List String :=
  if rsiShort > 65 then (-0.1, ["RSI 超买"])
  else if rsiShort < 35 then (0.1, ["RSI 超卖"])
  else (0, [])

/-- Volume-ratio block (evaluator.py lines 96-101). -/
def volStep (volumeRatio : ℚ) : ℚ × List String :=
  if volumeRatio > 1.5 then (0.1, ["放量"])
  else if volumeRatio < 0.7 then (-0.05, ["缩量"])
  else (0, [])

/-- ATR volatility block (evaluator.py lines 103-111); atr and price must be
truthy (nonzero) for the volatility percentage to be evaluated. -/
def atrStep (atr price : ℚ) : ℚ × List String :=
  if atr ≠ 0 ∧ price ≠ 0 then
    let volatilityPct := atr / max price (1e-9 : ℚ)
    if volatilityPct > 0.03 then (-0.05, ["波动加剧"])
    else if volatilityPct < 0.015 then (0.05, ["波动收敛"])
    else (0, [])
  else (0, [])

/-- SignalEvaluator dot map_score_to_confidence (evaluator.py lines
123-134): bucket the absolute score by the 0.2/0.4/0.6/0.8 cut points. -/
def mapScoreToConfidence (risk : RiskConfig) (score : ℚ) : ℚ :=
  let buckets := risk.confidence_buckets
  if score < 0.2 then buckets.getD 0 0
  else if score < 0.4 then buckets.getD 1 0
  else if score < 0.6 then buckets.getD 2 0
  else if score < 0.8 then buckets.getD 3 0
  else buckets.getD 4 0

/-- SignalEvaluator dot score_indicator (evaluator.py lines 45-121):
extract the working quantities with the dict defaults of lines 46-55, add
the block deltas in evaluation order, then classify direction, bucket the
confidence and join the reasons. -/
def scoreIndicator (risk : RiskConfig) (ind : IndicatorSet) :
    TradeDirection × ℚ × String × ℚ :=
  let macdHist := dgetD ind.macd "hist" 0
  let macdSig := dgetD ind.macd "signal" 0
  let maFast := dgetD ind.ma 5 0
  let maSlow := dgetD ind.ma 20 0
  let maLong := dgetD ind.ma 60 maSlow
  let emaFast := dgetD ind.ema 12 maFast
  let emaSlow := dgetD ind.ema 26 maSlow
  let rsiShort := dgetD ind.rsi 6 50
  let volumeRatio := orD ind.volume_ratio 1
  let price := ind.close
  let atr := orD ind.atr 0
  let m := macdStep macdHist macdSig
  let a := maStep maFast maSlow
  let e := emaStep emaFast emaSlow
  let p := priceStep price maLong
  let r := rsiStep rsiShort
  let v := volStep volumeRatio
  let t := atrStep atr price
  let score := m.1 + a.1 + e.1 + p.1 + r.1 + v.1 + t.1
  let reasons := m.2 ++ a.2 ++ e.2 ++ p.2 ++ r.2 ++ v.2 ++ t.2
  let direction :=
    if score > 0.1 then TradeDirection.long
    else if score < -0.1 then TradeDirection.short
    else TradeDirection.flat
  let confidence := mapScoreToConfidence risk |score|
  let reasonText := if reasons.isEmpty then "信号弱" else String.intercalate "；" reasons
  (direction, confidence, reasonText, score)

/-- SignalEvaluator.evaluate (evaluator.py lines 18-43): score each
indicator set and wrap it in a Signal with the metadata dict of lines
32-40. -/
def evaluate (risk : RiskConfig) (indicators : List IndicatorSet) : List Signal :=
  indicators.map fun ind =>
    let res := scoreIndicator risk ind
    let volatilityPct : ℚ :=
      match ind.atr with
      | some a => if a ≠ 0 ∧ ind.close ≠ 0 then a / max ind.close (1e-9 : ℚ) else 0
      | none => 0
    { symbol := ind.symbol
      direction := res.1
      confidence := res.2.1
      reason := res.2.2.1
      timestamp := ind.timestamp
      metadata :=
        [("macd_hist", .num (dgetD ind.macd "hist" 0)),
         ("volume_ratio", .num (orD ind.volume_ratio 0)),
         ("atr", .num (orD ind.atr 0)),
         ("score", .num res.2.2.2),
         ("volatility_pct", .num volatilityPct),
         ("close", .num ind.close),
         ("interval", .str ind.interval)] }

/-! Context builder, signals/context.py. -/

/-- The per-symbol caches owned by StrategyContextBuilder. -/
structure ContextCache where
  latest_indicators : List (String × IndicatorSet) := []
  latest_signals : List (String × Signal) := []
deriving DecidableEq, Repr

/-- StrategyContextBuilder.update_market_snapshot (context.py lines 20-24). -/
def updateMarketSnapshot (ctx : ContextCache) (ind : IndicatorSet)
    (signal : Option Signal) : ContextCache :=
  { latest_indicators := dset ctx.latest_indicators ind.symbol ind
    latest_signals :=
      match signal with
      | some s => dset ctx.latest_signals ind.symbol s
      | none => ctx.latest_signals }

/-! Orchestration tasks, scheduler/tasks.py. -/

/-- The mutable state owned by StrategyTasks: the state machine state and
the context-builder caches. -/
structure TasksState where
  machine : StrategyState
  context : ContextCache
deriving DecidableEq, Repr

/-- The confirmation/conflict collection loop of StrategyTasks dot
fuse_signals (tasks.py lines 125-133), walking the per-interval dict in
insertion order and returning the confirmation intervals and the tagged
conflict strings. -/
def fuseScan (base : Signal) (baseInterval : String) :
    List (String × IndicatorSet × Signal) → List String × List String
  | [] => ([], [])
  | (interval, _, s) :: rest =>
    let acc := fuseScan base baseInterval rest
    if interval = baseInterval ∨ s.direction = .flat then acc
    else if s.direction = base.direction ∧ base.direction ≠ .flat then
      (interval :: acc.1, acc.2)
    else if base.direction ≠ .flat then
      (acc.1, (interval ++ ":" ++ s.direction.value) :: acc.2)
    else acc

/-- StrategyTasks dot fuse_signals (tasks.py lines 119-168): collect
confirmations and conflicts; any conflict yields a flat signal at the lowest
confidence bucket; otherwise the base direction is kept and each
confirmation adds a 0.05 bonus capped at the highest bucket. -/
def fuseSignals (risk : RiskConfig) (base : Signal)
    (intervalSignals : List (String × IndicatorSet × Signal))
    (baseInterval : String) : Signal :=
  let scan := fuseScan base baseInterval intervalSignals
  let confirmations := scan.1
  let conflicts := scan.2
  let reasonParts := [base.reason]
  let metadata := dset base.metadata "base_interval" (.str baseInterval)
  let metadata := dset metadata "interval_breakdown"
    (.dirs (intervalSignals.map (fun e => (e.1, e.2.2.direction.value))))
  let maxConf := risk.confidence_buckets.getLastD 0
  let minConf := risk.confidence_buckets.headD 0
  if ¬ conflicts.isEmpty then
    { symbol := base.symbol
      direction := .flat
      confidence := minConf
      reason := String.intercalate "；" (reasonParts ++ ["高周期方向冲突"])
      timestamp := base.timestamp
      metadata := dset metadata "conflicts" (.strList conflicts) }
  else
    let hasBonus := ¬ confirmations.isEmpty ∧ base.direction ≠ .flat
    let confidence :=
      if hasBonus then
        min (base.confidence + 0.05 * (confirmations.length : ℚ)) maxConf
      else base.confidence
    let reasonParts :=
      if hasBonus then
        reasonParts ++ [String.intercalate "/" confirmations ++ " 同向确认"]
      else reasonParts
    { symbol := base.symbol
      direction := base.direction
      confidence := confidence
      reason := String.intercalate "；" reasonParts
      timestamp := base.timestamp
      metadata := dset metadata "confirmations" (.strList confirmations) }

/-- StrategyTasks dot select_best_signal (tasks.py lines 170-174): drop flat
signals and take the maximum by confidence; Python max keeps the first of
equal keys, modelled by a strict-greater fold. -/
def selectBestSignal (signals : List Signal) : Option Signal :=
  let nonFlat := signals.filter (fun s => decide (s.direction ≠ .flat))
  nonFlat.foldl
    (fun best s =>
      match best with
      | none => some s
      | some b => if s.confidence > b.confidence then some s else some b)
    none

/-- StrategyTasks dot minutes_until_session_close (tasks.py lines 176-179):
whole minutes from now to the next UTC midnight, floored at zero. -/
def minutesUntilSessionClose (now : ℚ) : ℤ :=
  let tomorrow : ℚ := ((⌊now / 86400⌋ + 1 : ℤ) : ℚ) * 86400
  max ⌊(tomorrow - now) / 60⌋ 0

/-- StrategyTasks dot fetch_latest_indicator (tasks.py lines 109-117): no
candles gives none; otherwise the last 200 candles go through
IndicatorCalculator.calculate (which raises for non-empty input, see
calculate) and the last indicator, if any, is returned. -/
def fetchLatestIndicator (cfg : Config) (fetch : String → String → List OHLCV)
    (symbol interval : String) : Except PyErr (Option IndicatorSet) :=
  let candles := fetch symbol interval
  if candles.isEmpty then .ok none
  else
    let recent := if candles.length > 200 then candles.drop (candles.length - 200) else candles
    match calculate cfg.indicators recent with
    | .error e => .error e
    | .ok indicators => .ok indicators.getLast?

/-- The per-interval loop of StrategyTasks dot generate_signal_for_symbol
(tasks.py lines 88-95), building the interval results dict in interval
order; a raised error propagates. -/
def intervalLoop (cfg : Config) (fetch : String → String → List OHLCV)
    (symbol : String) :
    List String → Except PyErr (List (String × IndicatorSet × Signal))
  | [] => .ok []
  | interval :: rest =>
    match fetchLatestIndicator cfg fetch symbol interval with
    | .error e => .error e
    | .ok none => intervalLoop cfg fetch symbol rest
    | .ok (some ind) =>
      let signals := evaluate cfg.risk [ind]
      match signals.getLast? with
      | none => intervalLoop cfg fetch symbol rest
      | some s =>
        match intervalLoop cfg fetch symbol rest with
        | .error e => .error e
        | .ok tail => .ok ((interval, ind, s) :: tail)

/-- StrategyTasks dot generate_signal_for_symbol (tasks.py lines 85-107):
run the interval loop, pick the base interval (first configured interval,
falling back to the first collected one), fuse, cache the snapshot and
return the fused signal. -/
def generateSignalForSymbol (cfg : Config) (fetch : String → String → List OHLCV)
    (ctx : ContextCache) (symbol : String) :
    Except PyErr (Option Signal × ContextCache) :=
  let intervals := if cfg.data.intervals.isEmpty then ["15m"] else cfg.data.intervals
  match intervalLoop cfg fetch symbol intervals with
  | .error e => .error e
  | .ok results =>
    if results.isEmpty then .ok (none, ctx)
    else
      let base0 := intervals.headD ""
      let baseInterval :=
        if results.any (fun e => decide (e.1 = base0)) then base0
        else match results.head? with
          | some e => e.1
          | none => base0
      match results.find? (fun e => decide (e.1 = baseInterval)) with
      | none => .error (.keyError baseInterval)
      | some (_, baseIndicator, baseSignal) =>
        let fused := fuseSignals cfg.risk baseSignal results baseInterval
        let ctx2 := updateMarketSnapshot ctx baseIndicator (some fused)
        .ok (some fused, ctx2)

/-- The per-symbol loop of StrategyTasks.run_data_cycle (tasks.py lines
36-43), accumulating non-flat fused candidates; a raised error carries the
context mutations made so far. -/
def symbolLoop (cfg : Config) (fetch : String → String → List OHLCV) :
    List String → List Signal → ContextCache →
    Except PyErr (List Signal) × ContextCache
  | [], candidates, ctx => (.ok candidates, ctx)
  | symbol :: rest, candidates, ctx =>
    match generateSignalForSymbol cfg fetch ctx symbol with
    | .error e => (.error e, ctx)
    | .ok (none, ctx2) => symbolLoop cfg fetch rest candidates ctx2
    | .ok (some s, ctx2) =>
      if s.direction ≠ .flat then symbolLoop cfg fetch rest (candidates ++ [s]) ctx2
      else symbolLoop cfg fetch rest candidates ctx2

/-- StrategyTasks.run_data_cycle (tasks.py lines 34-56).  After selecting
the best candidate, line 49 calls self dot context_builder dot
get_latest_indicator; StrategyContextBuilder (signals/context.py) declares
no such method, so that call raises AttributeError, and the entry-price
estimation, order planning and enter_position of lines 50-56 are
unreachable. -/
def runDataCycle (cfg : Config) (fetch : String → String → List OHLCV)
    (st : TasksState) : Except PyErr Unit × TasksState :=
  match symbolLoop cfg fetch cfg.data.symbols [] st.context with
  | (.error e, ctx) => (.error e, { st with context := ctx })
  | (.ok candidates, ctx) =>
    match selectBestSignal candidates with
    | none => (.ok (), { st with context := ctx })
    | some best =>
      if best.direction = .flat then (.ok (), { st with context := ctx })
      else
        (.error (.attributeError "StrategyContextBuilder.get_latest_indicator"),
         { st with context := ctx })

/-- StrategyTasks.run_minute_review (tasks.py lines 58-83).  With no open
position the review timestamp is marked and the tick ends.  With an open
position, line 70 binds the pair force_close, reason to the result of
should_force_close; that method returns a single bool
(state_machine.py lines 29-35), so the unpacking raises TypeError before
any state is touched, and the forced-close, AI-review and close paths of
lines 71-83 are unreachable. -/
def runMinuteReview (cfg : Config) (now : ℚ) (st : TasksState) :
    Except PyErr Unit × TasksState :=
  if needsMinuteReview st.machine now = false then (.ok (), st)
  else
    match st.machine.current_position with
    | none => (.ok (), { st with machine := markMinuteReview st.machine now })
    | some _ =>
      let minutesToClose := minutesUntilSessionClose now
      let _fc := shouldForceClose cfg.risk st.machine now minutesToClose
      (.error (.typeError "cannot unpack non-iterable bool object"), st)

/-! Spec-side definitions, written from the claims and the spec wording, to
be compared with the embedded code. -/

/-- Rubric line for MACD from the spec scoring table: histogram above zero
and above the signal adds 0.30, below zero and below the signal subtracts
0.30. -/
def rubricMacd (hist sig : ℚ) : ℚ :=
  if hist > 0 ∧ hist > sig then 0.3
  else if hist < 0 ∧ hist < sig then -0.3
  else 0

/-- Rubric comparison line: first quantity above the second adds d, below
subtracts d, equal contributes nothing (used for the MA, EMA and
price-versus-long-MA lines with d = 0.20, 0.10, 0.05). -/
def rubricCompare (a b d : ℚ) : ℚ :=
  if a > b then d else if a < b then -d else 0

/-- Rubric line for the short RSI: above 65 subtracts 0.10, below 35 adds
0.10. -/
def rubricRsi (r : ℚ) : ℚ :=
  if r > 65 then -0.1 else if r < 35 then 0.1 else 0

/-- Rubric line for the volume ratio: above 1.5 adds 0.10, below 0.7
subtracts 0.05; an unavailable ratio contributes nothing. -/
def rubricVolumeOpt (vr : Option ℚ) : ℚ :=
  match vr with
  | none => 0
  | some v => if v > 1.5 then 0.1 else if v < 0.7 then -0.05 else 0

/-- Rubric line for volatility: ATR over price above 0.03 subtracts 0.05,
below 0.015 adds 0.05; an unavailable ATR contributes nothing. -/
def rubricAtrOpt (atr : Option ℚ) (price : ℚ) : ℚ :=
  match atr with
  | none => 0
  | some a =>
    if a / price > 0.03 then -0.05 else if a / price < 0.015 then 0.05 else 0

/-- The spec scoring rubric: the sum of the independent line deltas, over
the indicator quantities at the engine windows (MA 5/20/60, EMA 12/26 with
MA fallbacks, RSI 6). -/
def rubricScore (ind : IndicatorSet) : ℚ :=
  rubricMacd (dgetD ind.macd "hist" 0) (dgetD ind.macd "signal" 0)
    + rubricCompare (dgetD ind.ma 5 0) (dgetD ind.ma 20 0) 0.2
    + rubricCompare (dgetD ind.ema 12 (dgetD ind.ma 5 0))
        (dgetD ind.ema 26 (dgetD ind.ma 20 0)) 0.1
    + rubricCompare ind.close (dgetD ind.ma 60 (dgetD ind.ma 20 0)) 0.05
    + rubricRsi (dgetD ind.rsi 6 50)
    + rubricVolumeOpt ind.volume_ratio
    + rubricAtrOpt ind.atr ind.close

/-- The band index determined by the 0.2/0.4/0.6/0.8 cut points of the
spec; band 3 (zero-based) is the fourth confidence band. -/
def cutIndex (s : ℚ) : ℕ :=
  if s < 0.2 then 0 else if s < 0.4 then 1 else if s < 0.6 then 2
  else if s < 0.8 then 3 else 4

/-- Spec notion of a fusion conflict: the base direction is non-flat and
some non-base timeframe has a non-flat direction different from it. -/
def hasConflict (base : Signal) (baseInterval : String)
    (l : List (String × IndicatorSet × Signal)) : Prop :=
  base.direction ≠ .flat ∧
    ∃ e ∈ l, e.1 ≠ baseInterval ∧ e.2.2.direction ≠ .flat ∧
      e.2.2.direction ≠ base.direction

instance (base : Signal) (baseInterval : String)
    (l : List (String × IndicatorSet × Signal)) :
    Decidable (hasConflict base baseInterval l) := by
  unfold hasConflict
  infer_instance

/-- Spec notion of the number of confirmations: non-base timeframes whose
direction equals the non-flat base direction. -/
def numConfirmations (base : Signal) (baseInterval : String)
    (l : List (String × IndicatorSet × Signal)) : ℕ :=
  (l.filter (fun e =>
    decide (e.1 ≠ baseInterval ∧ e.2.2.direction = base.direction ∧
      base.direction ≠ .flat))).length

/-! Concrete inputs used by witnesses and counterexamples. -/

/-- A concrete open long position used by witnesses. -/
def examplePosition : Position :=
  { symbol := "BTCUSDT", direction := .long, size := 1, entry_price := 100,
    leverage := 5, open_time := 0, stop_loss := 97, take_profit := 106 }

/-- A concrete non-flat signal used by witnesses. -/
def exampleSignalLong : Signal :=
  { symbol := "BTCUSDT", direction := .long, confidence := 0.08,
    reason := "demo", timestamp := 0, metadata := [] }

/-- A concrete candle used by witnesses. -/
def exampleCandle : OHLCV :=
  { symbol := "BTCUSDT", interval := "15m", open_time := 0, open_ := 100,
    high := 101, low := 99, close := 100.5, volume := 1000 }

/-- A second concrete candle, used by the indicator counterexample. -/
def exampleCandleB : OHLCV :=
  { symbol := "ETHUSDT", interval := "4h", open_time := 900, open_ := 2000,
    high := 2050, low := 1990, close := 2040, volume := 500 }

/-! Helper lemmas shared between claims. -/

/-- calculate raises the atr_window AttributeError on every non-empty
input. -/
lemma calculate_error_of_ne_nil (cfg : IndicatorConfig) (candles : List OHLCV)
    (h : candles ≠ []) :
    calculate cfg candles = .error (.attributeError "IndicatorConfig.atr_window") := by
  cases candles with
  | nil => exact absurd rfl h
  | cons c cs => simp [calculate]

/-! Claim theorems. -/

/-- C5: while a position is open, should_force_close is true exactly when
minutes_to_close is at most the forced-close buffer or the elapsed holding
time in minutes is at least the configured maximum; in particular it is
true when the holding time equals exactly the maximum and false one minute
before it when the buffer condition does not hold; and it is false whenever
no position is open. -/
theorem shouldForceClose_spec (risk : RiskConfig) (now : ℚ) (mtc : ℤ) :
    (∀ (st : StrategyState) (pos : Position), st.current_position = some pos →
      ((shouldForceClose risk st now mtc = true ↔
          mtc ≤ risk.forced_close_minutes_before_eod ∨
            (now - pos.open_time) / 60 ≥ (risk.max_position_minutes : ℚ))
        ∧ (now - pos.open_time = 60 * (risk.max_position_minutes : ℚ) →
            shouldForceClose risk st now mtc = true)
        ∧ (now - pos.open_time = 60 * ((risk.max_position_minutes : ℚ) - 1) →
            risk.forced_close_minutes_before_eod < mtc →
            shouldForceClose risk st now mtc = false)))
    ∧ ∀ st : StrategyState, st.current_position = none →
        shouldForceClose risk st now mtc = false := by
  constructor
  · intro st pos h
    have hiff : shouldForceClose risk st now mtc = true ↔
        mtc ≤ risk.forced_close_minutes_before_eod ∨
          (now - pos.open_time) / 60 ≥ (risk.max_position_minutes : ℚ) := by
      simp only [shouldForceClose, h]
      split_ifs with hb
      · simp [hb]
      · simp [hb]
    refine ⟨hiff, ?_, ?_⟩
    · intro he
      rw [hiff]
      right
      rw [he, mul_div_cancel_left₀ _ (by norm_num : (60 : ℚ) ≠ 0)]
    · intro he hb
      rw [← Bool.not_eq_true, hiff]
      push_neg
      refine ⟨hb, ?_⟩
      rw [he, mul_div_cancel_left₀ _ (by norm_num : (60 : ℚ) ≠ 0)]
      linarith
  · intro st h
    simp [shouldForceClose, h]

/-- Witness for C5: with the default configuration (maximum 120 minutes,
buffer 15), a position opened at time 0 reviewed at 7200 seconds (exactly
120 minutes) with 100 minutes to session close is force-closed, and with no
open position the check is false. -/
theorem shouldForceClose_spec_witness :
    shouldForceClose defaultRiskConfig
      { current_position := some examplePosition } 7200 100 = true
    ∧ shouldForceClose defaultRiskConfig {} 7200 100 = false := by
  constructor
  · exact ((shouldForceClose_spec defaultRiskConfig 7200 100).1
      { current_position := some examplePosition } examplePosition rfl).2.1
      (by norm_num [examplePosition, defaultRiskConfig])
  · exact (shouldForceClose_spec defaultRiskConfig 7200 100).2 {} rfl

/-- C8: for every risk configuration value, non-flat signal, equity and
positive price, create_position raises AttributeError on the undeclared
RiskConfig field use_atr_targets before any Position is constructed; the
RiskConfig model declares neither that field nor risk_per_trade_pct nor the
ATR target multipliers. -/
theorem createPosition_always_fails (risk : RiskConfig) (signal : Signal)
    (equity price : ℚ) (vol : Option ℚ)
    (hd : signal.direction ≠ .flat) (hp : 0 < price) :
    createPosition risk signal equity price vol =
      .error (.attributeError "RiskConfig.use_atr_targets")
    ∧ "use_atr_targets" ∉ riskConfigFields
    ∧ "risk_per_trade_pct" ∉ riskConfigFields
    ∧ "atr_take_profit_multiplier" ∉ riskConfigFields
    ∧ "atr_stop_loss_multiplier" ∉ riskConfigFields := by
  refine ⟨?_, by decide, by decide, by decide, by decide⟩
  simp [createPosition, not_le.mpr hp]

/-- Witness for C8: the concrete call with the default risk configuration,
a long signal, equity 10000 and price 100 fails with the AttributeError. -/
theorem createPosition_always_fails_witness :
    createPosition defaultRiskConfig exampleSignalLong 10000 100 none =
      .error (.attributeError "RiskConfig.use_atr_targets")
    ∧ "use_atr_targets" ∉ riskConfigFields
    ∧ "risk_per_trade_pct" ∉ riskConfigFields
    ∧ "atr_take_profit_multiplier" ∉ riskConfigFields
    ∧ "atr_stop_loss_multiplier" ∉ riskConfigFields :=
  createPosition_always_fails defaultRiskConfig exampleSignalLong 10000 100 none
    (by decide) (by norm_num)

/-- C6 (code_bug evaluation): at the failing input of a long signal with
equity 10000 and price 100, create_position raises AttributeError instead
of returning a sized Position; a non-positive price is indeed rejected with
ValueError. -/
theorem createPosition_eval_bug :
    createPosition defaultRiskConfig exampleSignalLong 10000 100 none =
      .error (.attributeError "RiskConfig.use_atr_targets")
    ∧ createPosition defaultRiskConfig exampleSignalLong 10000 0 none =
      .error (.valueError "Price must be positive to create a position.") := by
  constructor
  · simp [createPosition]
  · simp [createPosition]

/-- C9: calculate fails for every non-empty candle list with the
AttributeError on the undeclared IndicatorConfig field atr_window, returns
an empty list for empty input, and the IndicatorSet constructor keywords
close, volume and atr are not fields of the declared slots dataclass. -/
theorem calculate_breaks_on_nonempty :
    (∀ (cfg : IndicatorConfig) (candles : List OHLCV), candles ≠ [] →
      calculate cfg candles = .error (.attributeError "IndicatorConfig.atr_window"))
    ∧ (∀ cfg : IndicatorConfig, calculate cfg [] = .ok [])
    ∧ "atr_window" ∉ indicatorConfigFields
    ∧ ("close" ∈ calculateCtorKwargs ∧ "close" ∉ indicatorSetModelFields)
    ∧ ("volume" ∈ calculateCtorKwargs ∧ "volume" ∉ indicatorSetModelFields)
    ∧ ("atr" ∈ calculateCtorKwargs ∧ "atr" ∉ indicatorSetModelFields) := by
  refine ⟨calculate_error_of_ne_nil, fun cfg => rfl, by decide, ?_, ?_, ?_⟩
  all_goals exact ⟨by decide, by decide⟩

/-- Witness for C9: the single-candle list is rejected with the
AttributeError, and the empty list yields the empty output. -/
theorem calculate_breaks_on_nonempty_witness :
    calculate defaultIndicatorConfig [exampleCandle] =
      .error (.attributeError "IndicatorConfig.atr_window")
    ∧ calculate defaultIndicatorConfig [] = .ok [] :=
  ⟨calculate_breaks_on_nonempty.1 defaultIndicatorConfig [exampleCandle]
      (by simp),
   calculate_breaks_on_nonempty.2.1 defaultIndicatorConfig⟩

/-- C7 (counterexample): on the concrete one-candle series the Indicator
Engine produces no output at all, raising AttributeError on the undeclared
atr_window, so there is no first output point that could lack an ATR
value. -/
theorem calculate_first_point_counterexample :
    calculate defaultIndicatorConfig [exampleCandleB] =
      .error (.attributeError "IndicatorConfig.atr_window") := by
  simp [calculate]

/-- C7 (amended): for every non-empty input series the Indicator Engine
raises AttributeError on the undeclared IndicatorConfig field atr_window
before building any indicator point, so no point of any series ever carries
or lacks an ATR value; only the empty input returns (empty) output. -/
theorem calculate_no_atr_series (cfg : IndicatorConfig) (candles : List OHLCV)
    (h : candles ≠ []) :
    calculate cfg candles = .error (.attributeError "IndicatorConfig.atr_window") :=
  calculate_error_of_ne_nil cfg candles h

/-- Witness for the amended C7 at a concrete two-candle series. -/
theorem calculate_no_atr_series_witness :
    calculate defaultIndicatorConfig [exampleCandle, exampleCandleB] =
      .error (.attributeError "IndicatorConfig.atr_window") :=
  calculate_no_atr_series defaultIndicatorConfig [exampleCandle, exampleCandleB]
    (by simp)

/-- C10: every minute review that is due and finds an open position fails
with the TypeError from unpacking the bool returned by should_force_close,
and leaves the whole task state, in particular the current position and the
last_minute_review timestamp, unchanged. -/
theorem runMinuteReview_open_position_fails (cfg : Config) (now : ℚ)
    (st : TasksState) (pos : Position)
    (hr : needsMinuteReview st.machine now = true)
    (hp : st.machine.current_position = some pos) :
    runMinuteReview cfg now st =
      (.error (.typeError "cannot unpack non-iterable bool object"), st) := by
  simp [runMinuteReview, hr, hp]

/-- Witness for C10 at a concrete due review with an open position. -/
theorem runMinuteReview_open_position_fails_witness :
    runMinuteReview defaultConfig 1000
      { machine := { current_position := some examplePosition }, context := {} } =
      (.error (.typeError "cannot unpack non-iterable bool object"),
       { machine := { current_position := some examplePosition }, context := {} }) :=
  runMinuteReview_open_position_fails defaultConfig 1000
    { machine := { current_position := some examplePosition }, context := {} }
    examplePosition rfl rfl

/-- C4 (code_bug evaluation): at a due minute-review tick (last review 60
seconds earlier) with an open position, the review neither force-closes nor
consults the AI oracle: it raises TypeError unpacking the bool result of
should_force_close and leaves the state unchanged. -/
theorem runMinuteReview_eval_bug :
    runMinuteReview defaultConfig 120
      { machine := { current_position := some examplePosition,
                     last_minute_review := some 60 }, context := {} } =
      (.error (.typeError "cannot unpack non-iterable bool object"),
       { machine := { current_position := some examplePosition,
                      last_minute_review := some 60 }, context := {} }) := by
  simp [runMinuteReview, needsMinuteReview]
  norm_num

/-! Block lemmas relating the evaluator blocks to the spec rubric lines. -/

lemma macdStep_fst (h s : ℚ) : (macdStep h s).1 = rubricMacd h s := by
  unfold macdStep rubricMacd
  split_ifs <;> rfl

lemma maStep_fst (a b : ℚ) : (maStep a b).1 = rubricCompare a b 0.2 := by
  unfold maStep rubricCompare
  split_ifs <;> rfl

lemma emaStep_fst (a b : ℚ) : (emaStep a b).1 = rubricCompare a b 0.1 := by
  unfold emaStep rubricCompare
  split_ifs <;> rfl

lemma priceStep_fst (p m : ℚ) (hp : p ≠ 0) (hm : m ≠ 0) :
    (priceStep p m).1 = rubricCompare p m 0.05 := by
  unfold priceStep rubricCompare
  rw [if_pos ⟨hp, hm⟩]
  split_ifs <;> rfl

lemma rsiStep_fst (r : ℚ) : (rsiStep r).1 = rubricRsi r := by
  unfold rsiStep rubricRsi
  split_ifs <;> rfl

lemma volStep_fst (vr : Option ℚ) (hv : vr ≠ some 0) :
    (volStep (orD vr 1)).1 = rubricVolumeOpt vr := by
  cases vr with
  | none =>
    norm_num [orD, volStep, rubricVolumeOpt]
  | some v =>
    have hv0 : v ≠ 0 := fun h => hv (by rw [h])
    simp only [orD, if_neg hv0, volStep, rubricVolumeOpt]
    split_ifs <;> rfl

lemma atrStep_fst (atr : Option ℚ) (p : ℚ) (ha : atr ≠ some 0)
    (hp : (1e-9 : ℚ) ≤ p) :
    (atrStep (orD atr 0) p).1 = rubricAtrOpt atr p := by
  have hp0 : p ≠ 0 := ne_of_gt (lt_of_lt_of_le (by norm_num) hp)
  cases atr with
  | none =>
    simp [orD, atrStep, rubricAtrOpt]
  | some a =>
    have ha0 : a ≠ 0 := fun h => ha (by rw [h])
    simp only [orD, if_neg ha0, atrStep, rubricAtrOpt, if_pos (And.intro ha0 hp0),
      max_eq_left hp]
    split_ifs <;> rfl

lemma mapScoreToConfidence_eq_cut (risk : RiskConfig) (s : ℚ) :
    mapScoreToConfidence risk s = risk.confidence_buckets.getD (cutIndex s) 0 := by
  unfold mapScoreToConfidence cutIndex
  split_ifs <;> rfl

/-- C1: under the natural well-formedness of an indicator point (positive
price, a truthy long-window MA, no literally-zero volume ratio or ATR), the
evaluator raw score is the sum of the independent rubric deltas, the
direction is long exactly when the score exceeds 0.1 and short exactly when
it is below minus 0.1 (else flat), and the confidence is the configured
bucket selected by the 0.2/0.4/0.6/0.8 cut points on the absolute score. -/
theorem scoreIndicator_matches_rubric (risk : RiskConfig) (ind : IndicatorSet)
    (hp : (1e-9 : ℚ) ≤ ind.close)
    (hml : dgetD ind.ma 60 (dgetD ind.ma 20 0) ≠ 0)
    (hv : ind.volume_ratio ≠ some 0)
    (ha : ind.atr ≠ some 0) :
    (scoreIndicator risk ind).2.2.2 = rubricScore ind
    ∧ ((scoreIndicator risk ind).1 = .long ↔ rubricScore ind > 0.1)
    ∧ ((scoreIndicator risk ind).1 = .short ↔ rubricScore ind < -0.1)
    ∧ ((scoreIndicator risk ind).1 = .flat ↔
        ¬ rubricScore ind > 0.1 ∧ ¬ rubricScore ind < -0.1)
    ∧ (scoreIndicator risk ind).2.1 =
        risk.confidence_buckets.getD (cutIndex |rubricScore ind|) 0 := by
  have hp0 : ind.close ≠ 0 := ne_of_gt (lt_of_lt_of_le (by norm_num) hp)
  have hsc : (scoreIndicator risk ind).2.2.2 = rubricScore ind := by
    simp only [scoreIndicator]
    rw [macdStep_fst, maStep_fst, emaStep_fst, priceStep_fst _ _ hp0 hml,
      rsiStep_fst, volStep_fst _ hv, atrStep_fst _ _ ha hp]
    rfl
  have hdir : (scoreIndicator risk ind).1 =
      (if rubricScore ind > 0.1 then TradeDirection.long
       else if rubricScore ind < -0.1 then TradeDirection.short
       else TradeDirection.flat) := by
    simp only [scoreIndicator]
    rw [macdStep_fst, maStep_fst, emaStep_fst, priceStep_fst _ _ hp0 hml,
      rsiStep_fst, volStep_fst _ hv, atrStep_fst _ _ ha hp]
    rfl
  have hconf : (scoreIndicator risk ind).2.1 =
      mapScoreToConfidence risk |rubricScore ind| := by
    simp only [scoreIndicator]
    rw [macdStep_fst, maStep_fst, emaStep_fst, priceStep_fst _ _ hp0 hml,
      rsiStep_fst, volStep_fst _ hv, atrStep_fst _ _ ha hp]
    rfl
  refine ⟨hsc, ?_, ?_, ?_, by rw [hconf, mapScoreToConfidence_eq_cut]⟩
  · rw [hdir]
    split_ifs with h1 h2
    · exact iff_of_true rfl h1
    · exact iff_of_false (by decide) h1
    · exact iff_of_false (by decide) h1
  · rw [hdir]
    split_ifs with h1 h2
    · exact iff_of_false (by decide) (by intro hlt; linarith)
    · exact iff_of_true rfl h2
    · exact iff_of_false (by decide) h2
  · rw [hdir]
    split_ifs with h1 h2
    · exact iff_of_false (by decide) (fun hc => hc.1 h1)
    · exact iff_of_false (by decide) (fun hc => hc.2 h2)
    · exact iff_of_true rfl ⟨h1, h2⟩

/-- The spec scenario input: MACD histogram 1.2 above signal 0.8, fast MA
105 above slow MA 100, RSI 40, volume ratio 1.6, with a neutral EMA pair,
price on the long-window MA and no ATR, so that only the three listed rules
fire. -/
def scenarioIndicator : IndicatorSet :=
  { symbol := "BTCUSDT", interval := "15m", timestamp := 0, close := 100,
    volume := 1000, atr := none,
    ma := [(5, 105), (20, 100), (60, 100)],
    ema := [(12, 100), (26, 100)],
    macd := [("line", 0.4), ("signal", 0.8), ("hist", 1.2)],
    rsi := [(6, 40), (14, 50)],
    volume_ratio := some 1.6 }

/-- Witness for C1: on the spec scenario the rubric sum is 0.6, the
evaluator score agrees, the direction is long and the confidence is the
fourth configured band (0.12). -/
theorem scoreIndicator_matches_rubric_witness :
    rubricScore scenarioIndicator = 0.6
    ∧ (scoreIndicator defaultRiskConfig scenarioIndicator).2.2.2 = 0.6
    ∧ (scoreIndicator defaultRiskConfig scenarioIndicator).1 = .long
    ∧ (scoreIndicator defaultRiskConfig scenarioIndicator).2.1 = 0.12 := by
  have hml : dgetD scenarioIndicator.ma 60 (dgetD scenarioIndicator.ma 20 0) = 100 := rfl
  have h := scoreIndicator_matches_rubric defaultRiskConfig scenarioIndicator
    (by norm_num [scenarioIndicator])
    (by rw [hml]; norm_num)
    (by norm_num [scenarioIndicator])
    (by simp [scenarioIndicator])
  have hexp : rubricScore scenarioIndicator =
      rubricMacd 1.2 0.8 + rubricCompare 105 100 0.2 + rubricCompare 100 100 0.1
        + rubricCompare 100 100 0.05 + rubricRsi 40 + rubricVolumeOpt (some 1.6)
        + rubricAtrOpt none 100 := rfl
  have hr : rubricScore scenarioIndicator = 0.6 := by
    rw [hexp]
    norm_num [rubricMacd, rubricCompare, rubricRsi, rubricVolumeOpt, rubricAtrOpt]
  refine ⟨hr, by rw [h.1, hr], h.2.1.mpr (by rw [hr]; norm_num), ?_⟩
  rw [h.2.2.2.2, hr, show |(0.6 : ℚ)| = 0.6 from abs_of_nonneg (by norm_num)]
  norm_num [cutIndex, defaultRiskConfig]

/-! Lemmas about the fusion scan. -/

/-- The confirmations collected by the scan are counted by the spec notion
of confirmations. -/
lemma fuseScan_confirmations_length (base : Signal) (bi : String)
    (l : List (String × IndicatorSet × Signal)) :
    (fuseScan base bi l).1.length = numConfirmations base bi l := by
  induction l with
  | nil => rfl
  | cons e rest ih =>
    rcases e with ⟨interval, ind, s⟩
    have hnum : numConfirmations base bi ((interval, ind, s) :: rest) =
        if interval ≠ bi ∧ s.direction = base.direction ∧ base.direction ≠ .flat
        then numConfirmations base bi rest + 1
        else numConfirmations base bi rest := by
      simp only [numConfirmations, List.filter_cons]
      by_cases hpred : interval ≠ bi ∧ s.direction = base.direction ∧
          base.direction ≠ .flat
      · rw [if_pos (by simpa using hpred), if_pos hpred, List.length_cons]
      · rw [if_neg (by simpa using hpred), if_neg hpred]
    rw [hnum]
    by_cases h1 : interval = bi ∨ s.direction = .flat
    · have hscan : fuseScan base bi ((interval, ind, s) :: rest) =
          fuseScan base bi rest := by
        simp only [fuseScan]
        rw [if_pos h1]
      rw [hscan, if_neg]
      · exact ih
      · rintro ⟨hne, heq, hflat⟩
        rcases h1 with h1 | h1
        · exact hne h1
        · exact hflat (by rw [← heq]; exact h1)
    · have hne : interval ≠ bi := (not_or.mp h1).1
      by_cases h2 : s.direction = base.direction ∧ base.direction ≠ .flat
      · have hscan : fuseScan base bi ((interval, ind, s) :: rest) =
            (interval :: (fuseScan base bi rest).1, (fuseScan base bi rest).2) := by
          simp only [fuseScan]
          rw [if_neg h1, if_pos h2]
        rw [hscan, if_pos ⟨hne, h2.1, h2.2⟩]
        simp [ih]
      · by_cases h3 : base.direction ≠ .flat
        · have hscan : fuseScan base bi ((interval, ind, s) :: rest) =
              ((fuseScan base bi rest).1,
               (interval ++ ":" ++ s.direction.value) :: (fuseScan base bi rest).2) := by
            simp only [fuseScan]
            rw [if_neg h1, if_neg h2, if_pos h3]
          rw [hscan, if_neg (fun hp => h2 ⟨hp.2.1, hp.2.2⟩)]
          exact ih
        · have hscan : fuseScan base bi ((interval, ind, s) :: rest) =
              fuseScan base bi rest := by
            simp only [fuseScan]
            rw [if_neg h1, if_neg h2, if_neg h3]
          rw [hscan, if_neg (fun hp => h3 hp.2.2)]
          exact ih

/-- The scan records a conflict exactly when the spec notion of a conflict
holds. -/
lemma fuseScan_conflicts_ne_nil_iff (base : Signal) (bi : String)
    (l : List (String × IndicatorSet × Signal)) :
    (fuseScan base bi l).2 ≠ [] ↔ hasConflict base bi l := by
  induction l with
  | nil => simp [fuseScan, hasConflict]
  | cons e rest ih =>
    rcases e with ⟨interval, ind, s⟩
    have hcons : hasConflict base bi ((interval, ind, s) :: rest) ↔
        (base.direction ≠ .flat ∧
          (interval ≠ bi ∧ s.direction ≠ .flat ∧ s.direction ≠ base.direction))
        ∨ hasConflict base bi rest := by
      simp only [hasConflict, List.mem_cons]
      constructor
      · rintro ⟨hb, e, (rfl | he), hprop⟩
        · exact Or.inl ⟨hb, hprop⟩
        · exact Or.inr ⟨hb, e, he, hprop⟩
      · rintro (⟨hb, hprop⟩ | ⟨hb, e, he, hprop⟩)
        · exact ⟨hb, (interval, ind, s), Or.inl rfl, hprop⟩
        · exact ⟨hb, e, Or.inr he, hprop⟩
    rw [hcons]
    by_cases h1 : interval = bi ∨ s.direction = .flat
    · have hscan : fuseScan base bi ((interval, ind, s) :: rest) =
          fuseScan base bi rest := by
        simp only [fuseScan]
        rw [if_pos h1]
      rw [hscan, ih]
      constructor
      · exact Or.inr
      · rintro (⟨hb, hne, hsf, hsb⟩ | hc)
        · rcases h1 with h1 | h1
          · exact absurd h1 hne
          · exact absurd h1 hsf
        · exact hc
    · by_cases h2 : s.direction = base.direction ∧ base.direction ≠ .flat
      · have hscan : fuseScan base bi ((interval, ind, s) :: rest) =
            (interval :: (fuseScan base bi rest).1, (fuseScan base bi rest).2) := by
          simp only [fuseScan]
          rw [if_neg h1, if_pos h2]
        rw [hscan, ih]
        constructor
        · exact Or.inr
        · rintro (⟨hb, hne, hsf, hsb⟩ | hc)
          · exact absurd h2.1 hsb
          · exact hc
      · by_cases h3 : base.direction ≠ .flat
        · have hscan : fuseScan base bi ((interval, ind, s) :: rest) =
              ((fuseScan base bi rest).1,
               (interval ++ ":" ++ s.direction.value) :: (fuseScan base bi rest).2) := by
            simp only [fuseScan]
            rw [if_neg h1, if_neg h2, if_pos h3]
          rw [hscan]
          constructor
          · intro _
            refine Or.inl ⟨h3, (not_or.mp h1).1, (not_or.mp h1).2, ?_⟩
            intro heq
            exact h2 ⟨heq, h3⟩
          · intro _
            simp
        · have hscan : fuseScan base bi ((interval, ind, s) :: rest) =
              fuseScan base bi rest := by
            simp only [fuseScan]
            rw [if_neg h1, if_neg h2, if_neg h3]
          rw [hscan, ih]
          have hb : base.direction = .flat := not_not.mp h3
          constructor
          · exact Or.inr
          · rintro (⟨hbne, _⟩ | hc)
            · exact absurd hb hbne
            · exact hc

/-- C2: fused direction and confidence follow the conflict-override rule:
any conflict with a non-flat base forces a flat signal at the lowest
configured band regardless of confirmations, and otherwise the base
direction is kept with confidence min(base + 0.05 per confirmation, highest
band), provided the base confidence does not exceed the highest band. -/
theorem fuseSignals_fusion_rule (risk : RiskConfig) (base : Signal)
    (l : List (String × IndicatorSet × Signal)) (bi : String)
    (hconf : base.confidence ≤ risk.confidence_buckets.getLastD 0) :
    (hasConflict base bi l →
      (fuseSignals risk base l bi).direction = .flat
      ∧ (fuseSignals risk base l bi).confidence = risk.confidence_buckets.headD 0)
    ∧ (¬ hasConflict base bi l →
      (fuseSignals risk base l bi).direction = base.direction
      ∧ (fuseSignals risk base l bi).confidence =
          min (base.confidence + 0.05 * (numConfirmations base bi l : ℚ))
            (risk.confidence_buckets.getLastD 0)) := by
  constructor
  · intro hc
    have hne : (fuseScan base bi l).2 ≠ [] :=
      (fuseScan_conflicts_ne_nil_iff base bi l).mpr hc
    simp only [fuseSignals]
    rw [if_pos (by simpa [List.isEmpty_iff] using hne)]
    exact ⟨rfl, rfl⟩
  · intro hnc
    have hnil : (fuseScan base bi l).2 = [] := by
      by_contra hne
      exact hnc ((fuseScan_conflicts_ne_nil_iff base bi l).mp hne)
    simp only [fuseSignals]
    rw [if_neg (by simp [List.isEmpty_iff, hnil])]
    refine ⟨rfl, ?_⟩
    by_cases hcempty : (fuseScan base bi l).1 = []
    · have hzero : numConfirmations base bi l = 0 := by
        rw [← fuseScan_confirmations_length, hcempty]
        rfl
      have hnb : ¬ (¬ (fuseScan base bi l).1.isEmpty ∧ base.direction ≠ .flat) := by
        simp [List.isEmpty_iff, hcempty]
      rw [if_neg hnb, hzero]
      push_cast
      rw [mul_zero, add_zero]
      exact (min_eq_left hconf).symm
    · have hlenpos : 0 < (l.filter (fun e =>
          decide (e.1 ≠ bi ∧ e.2.2.direction = base.direction ∧
            base.direction ≠ .flat))).length := by
        have : 0 < (fuseScan base bi l).1.length :=
          List.length_pos.mpr hcempty
        rwa [fuseScan_confirmations_length, numConfirmations] at this
      have hbase : base.direction ≠ .flat := by
        obtain ⟨e, he⟩ := List.exists_mem_of_length_pos hlenpos
        have := of_decide_eq_true (List.mem_filter.mp he).2
        exact this.2.2
      have hb : ¬ (fuseScan base bi l).1.isEmpty ∧ base.direction ≠ .flat :=
        ⟨by simpa [List.isEmpty_iff] using hcempty, hbase⟩
      rw [if_pos hb, fuseScan_confirmations_length]

/-- A concrete short signal on the 4h timeframe used by the fusion
witness. -/
def exampleSignalShort : Signal :=
  { symbol := "BTCUSDT", direction := .short, confidence := 0.10,
    reason := "demo", timestamp := 0, metadata := [] }

/-- Witness for C2: a long 15m base signal (confidence 0.08) against a
short 4h signal fuses to flat at the lowest band 0.05, and against a long
4h signal fuses to long at min(0.08 + 0.05, 0.15) = 0.13. -/
theorem fuseSignals_fusion_rule_witness :
    (fuseSignals defaultRiskConfig exampleSignalLong
        [("4h", scenarioIndicator, exampleSignalShort)] "15m").direction = .flat
    ∧ (fuseSignals defaultRiskConfig exampleSignalLong
        [("4h", scenarioIndicator, exampleSignalShort)] "15m").confidence = 0.05
    ∧ (fuseSignals defaultRiskConfig exampleSignalLong
        [("4h", scenarioIndicator, exampleSignalLong)] "15m").direction = .long
    ∧ (fuseSignals defaultRiskConfig exampleSignalLong
        [("4h", scenarioIndicator, exampleSignalLong)] "15m").confidence = 0.13 := by
  have hlast : defaultRiskConfig.confidence_buckets.getLastD 0 = 0.15 := rfl
  have hconf : exampleSignalLong.confidence ≤
      defaultRiskConfig.confidence_buckets.getLastD 0 := by
    rw [hlast]
    norm_num [exampleSignalLong]
  have hcon : hasConflict exampleSignalLong "15m"
      [("4h", scenarioIndicator, exampleSignalShort)] := by
    refine ⟨by simp [exampleSignalLong], ("4h", scenarioIndicator, exampleSignalShort),
      by simp, by simp, ?_, ?_⟩
    · simp [exampleSignalShort]
    · simp [exampleSignalShort, exampleSignalLong]
  have hnocon : ¬ hasConflict exampleSignalLong "15m"
      [("4h", scenarioIndicator, exampleSignalLong)] := by
    rintro ⟨hb, e, he, hne, hsf, hsb⟩
    simp only [List.mem_singleton] at he
    subst he
    exact hsb rfl
  have h1 := (fuseSignals_fusion_rule defaultRiskConfig exampleSignalLong
    [("4h", scenarioIndicator, exampleSignalShort)] "15m" hconf).1 hcon
  have h2 := (fuseSignals_fusion_rule defaultRiskConfig exampleSignalLong
    [("4h", scenarioIndicator, exampleSignalLong)] "15m" hconf).2 hnocon
  have hnum : numConfirmations exampleSignalLong "15m"
      [("4h", scenarioIndicator, exampleSignalLong)] = 1 := rfl
  refine ⟨h1.1, by rw [h1.2]; rfl, by rw [h2.1]; rfl, ?_⟩
  rw [h2.2, hnum, hlast]
  norm_num [exampleSignalLong]

/-! Lemmas for the data cycle. -/

/-- fetch_latest_indicator never returns an indicator: an empty candle set
yields none, and a non-empty one makes calculate raise. -/
lemma fetchLatestIndicator_ok_none (cfg : Config)
    (fetch : String → String → List OHLCV) (symbol interval : String)
    (x : Option IndicatorSet)
    (h : fetchLatestIndicator cfg fetch symbol interval = .ok x) : x = none := by
  unfold fetchLatestIndicator at h
  by_cases hc : (fetch symbol interval).isEmpty
  · rw [if_pos hc] at h
    exact (Except.ok.inj h).symm
  · rw [if_neg hc] at h
    have hne : (fetch symbol interval) ≠ [] := by
      simpa [List.isEmpty_iff] using hc
    have hrec : (if (fetch symbol interval).length > 200 then
        (fetch symbol interval).drop ((fetch symbol interval).length - 200)
        else fetch symbol interval) ≠ [] := by
      by_cases hl : (fetch symbol interval).length > 200
      · rw [if_pos hl]
        have : ((fetch symbol interval).drop
            ((fetch symbol interval).length - 200)).length = 200 := by
          rw [List.length_drop, Nat.sub_sub_self (le_of_lt hl)]
        intro hnil
        rw [hnil] at this
        simp at this
      · rw [if_neg hl]
        exact hne
    simp only [calculate_error_of_ne_nil cfg.indicators _ hrec] at h
    exact Except.noConfusion h

/-- The interval loop can only succeed with an empty results list. -/
lemma intervalLoop_ok_nil (cfg : Config) (fetch : String → String → List OHLCV)
    (symbol : String) (ints : List String)
    (r : List (String × IndicatorSet × Signal))
    (h : intervalLoop cfg fetch symbol ints = .ok r) : r = [] := by
  induction ints generalizing r with
  | nil => exact (Except.ok.inj h).symm
  | cons interval rest ih =>
    simp only [intervalLoop] at h
    cases hf : fetchLatestIndicator cfg fetch symbol interval with
    | error e =>
      rw [hf] at h
      exact Except.noConfusion h
    | ok o =>
      have ho : o = none := fetchLatestIndicator_ok_none cfg fetch symbol interval o hf
      subst ho
      rw [hf] at h
      exact ih r h

/-- generate_signal_for_symbol either raises or produces no signal,
leaving the context cache unchanged. -/
lemma generateSignalForSymbol_none_or_error (cfg : Config)
    (fetch : String → String → List OHLCV) (ctx : ContextCache) (symbol : String) :
    (∃ e, generateSignalForSymbol cfg fetch ctx symbol = .error e) ∨
      generateSignalForSymbol cfg fetch ctx symbol = .ok (none, ctx) := by
  unfold generateSignalForSymbol
  cases hl : intervalLoop cfg fetch symbol
      (if cfg.data.intervals.isEmpty then ["15m"] else cfg.data.intervals) with
  | error e =>
    left
    exact ⟨e, by simp only [hl]⟩
  | ok r =>
    have hr : r = [] := intervalLoop_ok_nil cfg fetch symbol _ r hl
    subst hr
    right
    simp only [hl]
    rfl

/-- The symbol loop never accumulates a candidate: it either raises or
returns the candidates it started with. -/
lemma symbolLoop_no_candidates (cfg : Config)
    (fetch : String → String → List OHLCV) (syms : List String) :
    ∀ (cands : List Signal) (ctx : ContextCache),
      (∃ e ctx2, symbolLoop cfg fetch syms cands ctx = (.error e, ctx2)) ∨
        ∃ ctx2, symbolLoop cfg fetch syms cands ctx = (.ok cands, ctx2) := by
  induction syms with
  | nil =>
    intro cands ctx
    right
    exact ⟨ctx, rfl⟩
  | cons symbol rest ih =>
    intro cands ctx
    rcases generateSignalForSymbol_none_or_error cfg fetch ctx symbol with ⟨e, he⟩ | hok
    · left
      exact ⟨e, ctx, by simp only [symbolLoop, he]⟩
    · rcases ih cands ctx with ⟨e, ctx2, h⟩ | ⟨ctx2, h⟩
      · left
        refine ⟨e, ctx2, ?_⟩
        simp only [symbolLoop, hok]
        exact h
      · right
        refine ⟨ctx2, ?_⟩
        simp only [symbolLoop, hok]
        exact h

/-- The data cycle never touches the state machine state. -/
lemma runDataCycle_machine (cfg : Config) (fetch : String → String → List OHLCV)
    (st : TasksState) : ((runDataCycle cfg fetch st).2).machine = st.machine := by
  unfold runDataCycle
  rcases symbolLoop_no_candidates cfg fetch cfg.data.symbols [] st.context with
    ⟨e, ctx2, h⟩ | ⟨ctx2, h⟩
  · rw [h]
  · rw [h]
    rfl

/-- C3: the data cycle never replaces an existing open position: it leaves
the state machine state unchanged in every run (it either finds no
candidate or raises before enter_position), so whenever a position is open
before the cycle, the same position is open after it. -/
theorem runDataCycle_preserves_open_position (cfg : Config)
    (fetch : String → String → List OHLCV) (st : TasksState) :
    ((runDataCycle cfg fetch st).2).machine = st.machine
    ∧ ∀ p : Position, st.machine.current_position = some p →
        ((runDataCycle cfg fetch st).2).machine.current_position = some p := by
  refine ⟨runDataCycle_machine cfg fetch st, fun p hp => ?_⟩
  rw [runDataCycle_machine]
  exact hp

/-- Witness for C3: with the default configuration, an empty candle feed
and an open position, the data cycle completes with the same open
position. -/
theorem runDataCycle_preserves_open_position_witness :
    ((runDataCycle defaultConfig (fun _ _ => [])
        { machine := { current_position := some examplePosition }, context := {} }).2).machine.current_position
      = some examplePosition :=
  (runDataCycle_preserves_open_position defaultConfig (fun _ _ => [])
    { machine := { current_position := some examplePosition }, context := {} }).2
    examplePosition rfl

end QuantStrategy
